import Mathlib

/-
Verification of the notification aggregator, API-client response
interceptors and public feedback-form validation of the c_frontend
repository.  The definitions below are a shallow embedding of the
TypeScript source: React state updates become explicit state passing,
remote-call outcomes become a Boolean (or Option) parameter, and the
browser surface (stored token, current path, issued redirect) becomes
explicit record fields.
-/

namespace CFrontend

/-- A user-visible alert, mirroring the `Notification` records built and
stored by `NotificationContext.tsx` (fields `id`, `notification_type`,
`title`, `message`, `is_read`, `created_at`, `data`). -/
structure Notification where
  id : Nat
  notification_type : String
  title : String
  message : String
  is_read : Bool
  created_at : String
  data : List (String × String)
  deriving Repr, DecidableEq

/-- The aggregator's state: the `notifications` list, the `unreadCount`
counter and the `loading` flag held by `NotificationProvider`. -/
structure NotifState where
  notifications : List Notification
  unreadCount : Int
  loading : Bool
  deriving Repr, DecidableEq

/-- The provider's initial state: `useState<Notification[]>([])`,
`useState(0)`, `useState(true)`. -/
def initState : NotifState :=
  { notifications := [], unreadCount := 0, loading := true }

/-- `addNotification` of `NotificationContext.tsx`: puts the new entry at
the front of the list (`[notification, ...prev]`) and increments the
unread counter (`prev + 1`). -/
def addNotification (n : Notification) (s : NotifState) : NotifState :=
  { s with
    notifications := n :: s.notifications,
    unreadCount := s.unreadCount + 1 }

/-- `markAsRead` of `NotificationContext.tsx`.  The remote call is awaited
before any state update, so its outcome is a parameter: when it fails
(`remoteOk = false`) the `catch` block only logs and no state update runs;
when it succeeds, the matching entries get `is_read := true` and the
counter becomes `Math.max(0, prev - 1)`. -/
def markAsRead (remoteOk : Bool) (i : Nat) (s : NotifState) : NotifState :=
  match remoteOk with
  | false => s
  | true =>
    { s with
      notifications := s.notifications.map fun n =>
        if n.id = i then { n with is_read := true } else n,
      unreadCount := max 0 (s.unreadCount - 1) }

/-- `markAllAsRead` of `NotificationContext.tsx`: on remote success every
entry gets `is_read := true` and the counter is set to 0; on failure the
`catch` block only logs. -/
def markAllAsRead (remoteOk : Bool) (s : NotifState) : NotifState :=
  match remoteOk with
  | false => s
  | true =>
    { s with
      notifications := s.notifications.map fun n => { n with is_read := true },
      unreadCount := 0 }

/-- The `"notification_count"` push-event handler:
`setUnreadCount(data.unread_count)`. -/
def handleNotificationCount (v : Int) (s : NotifState) : NotifState :=
  { s with unreadCount := v }

/-- Payload of a `"notification"` push event. -/
structure PushNotificationData where
  notification_type : String
  title : String
  message : String
  data : List (String × String)
  deriving Repr, DecidableEq

/-- The `"notification"` push-event handler: builds a `Notification` with a
locally generated id (`Date.now()`, the `now` parameter), the current
timestamp string, `is_read := false`, and calls `addNotification`. -/
def handlePushNotification (now : Nat) (nowIso : String)
    (d : PushNotificationData) (s : NotifState) : NotifState :=
  addNotification
    { id := now
      notification_type := d.notification_type
      title := d.title
      message := d.message
      is_read := false
      created_at := nowIso
      data := d.data } s

/-- Payload of a `"new_response"` push event. -/
structure NewResponseData where
  form_id : String
  response_id : String
  form_title : String
  deriving Repr, DecidableEq

/-- The `"new_response"` push-event handler: builds a synthetic
`Notification` describing the new response and calls `addNotification`. -/
def handleNewResponse (now : Nat) (nowIso : String)
    (d : NewResponseData) (s : NotifState) : NotifState :=
  addNotification
    { id := now
      notification_type := "new_response"
      title := "New Response Received"
      message := "New response received for \"" ++ d.form_title ++ "\""
      is_read := false
      created_at := nowIso
      data := [("form_id", d.form_id), ("response_id", d.response_id),
               ("form_title", d.form_title)] } s

/-- `loadNotifications` of `NotificationContext.tsx`: the two concurrent
fetches (`Promise.all`) populate the list and the counter only when both
succeed; a failure of either rejects the pair, the `catch` block only
logs, and `finally` clears the loading flag in every case. -/
def loadNotifications (listResult : Option (List Notification))
    (countResult : Option Int) (s : NotifState) : NotifState :=
  match listResult, countResult with
  | some ns, some c =>
    { s with notifications := ns, unreadCount := c, loading := false }
  | _, _ => { s with loading := false }

/-- One completed operation on the aggregator's state, as driven by the UI
and the push channel (the `"notification_count"` resync excluded: it
overwrites the counter with an arbitrary server value). -/
inductive NotifOp where
  | add (n : Notification)
  | markRead (remoteOk : Bool) (i : Nat)
  | markAll (remoteOk : Bool)
  | pushNotification (now : Nat) (nowIso : String) (d : PushNotificationData)
  | pushNewResponse (now : Nat) (nowIso : String) (d : NewResponseData)
  deriving Repr

/-- Applies one completed operation to the state. -/
def applyOp (s : NotifState) : NotifOp → NotifState
  | .add n => addNotification n s
  | .markRead remoteOk i => markAsRead remoteOk i s
  | .markAll remoteOk => markAllAsRead remoteOk s
  | .pushNotification now nowIso d => handlePushNotification now nowIso d s
  | .pushNewResponse now nowIso d => handleNewResponse now nowIso d s

/-- Runs a sequence of completed operations from the initial state. -/
def runOps (ops : List NotifOp) : NotifState :=
  ops.foldl applyOp initState

/-- The browser surface the API client's interceptors touch: the stored
bearer token (`localStorage`, key `authToken`) and the current
`window.location.pathname`. -/
structure BrowserState where
  authToken : Option String
  pathname : String
  deriving Repr, DecidableEq

/-- What a response interceptor leaves behind: the stored token after the
interceptor ran, and the location it navigated to, if any. -/
structure InterceptOutcome where
  authToken : Option String
  redirectTo : Option String
  deriving Repr, DecidableEq

/-- Whether `pat` occurs contiguously in `cs`, starting at the front
(character-by-character comparison). -/
def leadingMatch : List Char → List Char → Bool
  | [], _ => true
  | _ :: _, [] => false
  | p :: ps, c :: cs => p == c && leadingMatch ps cs

/-- JavaScript's `String.prototype.includes`: `pat` occurs contiguously
somewhere in `s`. -/
def strContains (s pat : String) : Bool :=
  (List.range (s.toList.length + 1)).any fun i =>
    leadingMatch pat.toList (s.toList.drop i)

/-- The response interceptor of the first `services/api.ts` variant: on a
401 status it removes `authToken` and unconditionally sets
`window.location.href = '/login'`; any other status passes through. -/
def responseInterceptorV1 (status : Nat) (b : BrowserState) : InterceptOutcome :=
  if status = 401 then
    { authToken := none, redirectTo := some "/login" }
  else
    { authToken := b.authToken, redirectTo := none }

/-- The response interceptor of the second `services/api.ts` variant: on a
401 status it removes `authToken`, then redirects to `/login` only when
the current path contains neither `/login` nor `/feedback/`. -/
def responseInterceptorV2 (status : Nat) (b : BrowserState) : InterceptOutcome :=
  if status = 401 then
    { authToken := none
      redirectTo :=
        if !(strContains b.pathname "/login") && !(strContains b.pathname "/feedback/")
        then some "/login" else none }
  else
    { authToken := b.authToken, redirectTo := none }

/-- A value of the `answers` map of `PublicFeedbackForm.tsx`: a string
(text inputs, radio, yes/no), a string array (checkboxes) or a number
(rating buttons). -/
inductive AnswerValue where
  | str (s : String)
  | arr (xs : List String)
  | num (n : Int)
  deriving Repr, DecidableEq

/-- The emptiness test of `validateForm`, applied to `answers[question.id]`:
`answer === undefined || answer === '' || (Array.isArray(answer) &&
answer.length === 0)`. -/
def answerMissing : Option AnswerValue → Bool
  | none => true
  | some (.str s) => s = ""
  | some (.arr xs) => xs.isEmpty
  | some (.num _) => false

/-- A question of the loaded form, keeping the fields `validateForm`
reads. -/
structure Question where
  id : Nat
  is_required : Bool
  deriving Repr, DecidableEq

/-- The loaded public feedback form. -/
structure PublicForm where
  questions : List Question
  deriving Repr, DecidableEq

/-- `validateForm` of `PublicFeedbackForm.tsx`: false when no form is
loaded; otherwise every required question's answer must be present and
non-empty. -/
def validateForm (form : Option PublicForm)
    (answers : List (Nat × AnswerValue)) : Bool :=
  match form with
  | none => false
  | some f =>
    f.questions.all fun q =>
      !q.is_required || !(answerMissing (answers.lookup q.id))

/-- `String(value)` / `value.join(', ')` as used when building the
submission payload. -/
def answerText : AnswerValue → String
  | .str s => s
  | .arr xs => String.intercalate ", " xs
  | .num n => toString n

/-- One element of the submitted `answers` array. -/
structure SubmitAnswer where
  question : Nat
  answer_text : String
  answer_value : AnswerValue
  deriving Repr, DecidableEq

/-- The body of the submission request. -/
structure SubmitFeedbackData where
  form : String
  answers : List SubmitAnswer
  deriving Repr, DecidableEq

/-- `handleSubmit` of `PublicFeedbackForm.tsx`: when `validateForm` fails
it alerts and returns without issuing any request (`none`); otherwise it
builds the payload from the answers map and issues the submission request
(`some payload`). -/
def handleSubmit (formId : String) (form : Option PublicForm)
    (answers : List (Nat × AnswerValue)) : Option SubmitFeedbackData :=
  if validateForm form answers then
    some { form := formId
           answers := answers.map fun p =>
             { question := p.1, answer_text := answerText p.2,
               answer_value := p.2 } }
  else none

/-- A sample unread notification used by the concrete counterexample and
witness states below. -/
def sampleNotif (i : Nat) (read : Bool) : Notification :=
  { id := i
    notification_type := "new_response"
    title := "New Response Received"
    message := "New response received for \"Survey\""
    is_read := read
    created_at := "2026-01-01T00:00:00.000Z"
    data := [] }

/-- A state with a single unread notification of id 1 and counter 1. -/
def cexStateC1 : NotifState :=
  { notifications := [sampleNotif 1 false], unreadCount := 1, loading := false }

/-- C1 counterexample: in the state with one unread entry of id 1 and
counter 1, a `markAsRead(1)` whose remote call fails does NOT leave the
entry marked read with the counter decremented — the claimed optimistic
outcome is false at this input. -/
theorem markAsRead_failure_claim_false :
    ¬ (((markAsRead false 1 cexStateC1).notifications.any fun n =>
          n.id == 1 && n.is_read) = true ∧
       (markAsRead false 1 cexStateC1).unreadCount = 0) := by
  decide

/-- C1 (amended): when the remote mark-read call fails, the `catch` block
only logs and no local mutation happens at all — `markAsRead` leaves the
state exactly unchanged (the code awaits the remote call before mutating,
so there is nothing to roll back). -/
theorem markAsRead_failure_no_mutation (s : NotifState) (i : Nat) :
    markAsRead false i s = s := rfl

/-- C4: `addNotification` grows the list by exactly one, places the new
entry at the front, keeps every existing entry in its old order behind it,
and increments the unread counter by exactly 1. -/
theorem addNotification_front (n : Notification) (s : NotifState) :
    (addNotification n s).notifications.length = s.notifications.length + 1 ∧
    (addNotification n s).notifications.head? = some n ∧
    (addNotification n s).notifications.drop 1 = s.notifications ∧
    (addNotification n s).unreadCount = s.unreadCount + 1 := by
  refine ⟨?_, rfl, rfl, rfl⟩
  simp [addNotification]

/-- C5: a `"notification_count"` push event overwrites the unread counter
with the delivered value, whatever the prior counter was, and leaves the
notification list (and the loading flag) unchanged. -/
theorem notificationCount_overwrites (v : Int) (s : NotifState) :
    (handleNotificationCount v s).unreadCount = v ∧
    (handleNotificationCount v s).notifications = s.notifications ∧
    (handleNotificationCount v s).loading = s.loading :=
  ⟨rfl, rfl, rfl⟩

/-- C6: `loadNotifications` clears the loading flag whatever the outcome
of the two fetches, and when either fetch fails the list and the counter
keep their previous values. -/
theorem loadNotifications_outcomes (s : NotifState)
    (listResult : Option (List Notification)) (countResult : Option Int) :
    (loadNotifications listResult countResult s).loading = false ∧
    (loadNotifications none countResult s).notifications = s.notifications ∧
    (loadNotifications none countResult s).unreadCount = s.unreadCount ∧
    (loadNotifications listResult none s).notifications = s.notifications ∧
    (loadNotifications listResult none s).unreadCount = s.unreadCount := by
  cases listResult <;> cases countResult <;>
    simp [loadNotifications]

/-- Setting the read flag of an already-read entry changes nothing. -/
lemma setRead_self (n : Notification) (h : n.is_read = true) :
    { n with is_read := true } = n := by
  cases n
  simp_all

/-- Mapping a function that fixes every element of a list is the
identity. -/
lemma map_fix {α : Type} (l : List α) (f : α → α)
    (h : ∀ a ∈ l, f a = a) : l.map f = l := by
  induction l with
  | nil => rfl
  | cons a t ih =>
    simp only [List.map_cons]
    rw [h a (by simp), ih fun x hx => h x (by simp [hx])]

/-- C2: on an existing unread entry (and remote success), `markAsRead`
sets the matching entry's read flag to true, replaces the counter by
`max 0 (previous - 1)` — a decrement by exactly 1 floored at 0 — and the
counter never becomes negative. -/
theorem markAsRead_success_unread (s : NotifState) (i : Nat)
    (h : ∃ n ∈ s.notifications, n.id = i ∧ n.is_read = false) :
    (∀ n ∈ (markAsRead true i s).notifications, n.id = i → n.is_read = true) ∧
    (markAsRead true i s).unreadCount = max 0 (s.unreadCount - 1) ∧
    0 ≤ (markAsRead true i s).unreadCount := by
  refine ⟨?_, rfl, le_max_left _ _⟩
  intro n hn hid
  simp only [markAsRead, List.mem_map] at hn
  obtain ⟨m, _, rfl⟩ := hn
  by_cases hmi : m.id = i
  · simp [hmi]
  · simp only [if_neg hmi] at hid
    exact absurd hid hmi

/-- A state with one unread notification of id 5 and counter 2. -/
def witStateC2 : NotifState :=
  { notifications := [sampleNotif 5 false], unreadCount := 2, loading := false }

/-- C2 witness: the theorem instantiated at a concrete state holding an
unread entry of id 5 with counter 2. -/
theorem markAsRead_success_unread_witness :
    (∀ n ∈ (markAsRead true 5 witStateC2).notifications,
      n.id = 5 → n.is_read = true) ∧
    (markAsRead true 5 witStateC2).unreadCount = max 0 (witStateC2.unreadCount - 1) ∧
    0 ≤ (markAsRead true 5 witStateC2).unreadCount :=
  markAsRead_success_unread witStateC2 5 (by decide)

/-- C9: with remote success, the counter update of `markAsRead` is
unconditional: whenever every entry of the given id is already read (in
particular when no entry has the id at all) the list is left unchanged,
yet the counter still becomes `max 0 (previous - 1)`. -/
theorem markAsRead_decrements_without_match (s : NotifState) (i : Nat)
    (h : ∀ n ∈ s.notifications, n.id = i → n.is_read = true) :
    (markAsRead true i s).notifications = s.notifications ∧
    (markAsRead true i s).unreadCount = max 0 (s.unreadCount - 1) := by
  refine ⟨?_, rfl⟩
  show s.notifications.map _ = s.notifications
  refine map_fix _ _ fun n hn => ?_
  by_cases hni : n.id = i
  · rw [if_pos hni, setRead_self n (h n hn hni)]
  · exact if_neg hni

/-- A state with one read notification of id 2 and counter 3; id 1 does
not occur. -/
def witStateC9 : NotifState :=
  { notifications := [sampleNotif 2 true], unreadCount := 3, loading := false }

/-- C9 witness: the theorem instantiated at a concrete state with no
entry of id 1 — the list survives unchanged and the counter still drops
from 3 to 2. -/
theorem markAsRead_decrements_without_match_witness :
    (markAsRead true 1 witStateC9).notifications = witStateC9.notifications ∧
    (markAsRead true 1 witStateC9).unreadCount = max 0 (witStateC9.unreadCount - 1) :=
  markAsRead_decrements_without_match witStateC9 1 (by decide)

/-- Equality of every field except the read flag. -/
def sameExceptRead (a b : Notification) : Prop :=
  a.id = b.id ∧ a.notification_type = b.notification_type ∧
  a.title = b.title ∧ a.message = b.message ∧
  a.created_at = b.created_at ∧ a.data = b.data

/-- Pairing a list with its image under the read-flag map relates each
entry to one agreeing on every other field. -/
lemma zip_map_setRead (l : List Notification) :
    ∀ p ∈ l.zip (l.map fun n => { n with is_read := true }),
      sameExceptRead p.1 p.2 := by
  induction l with
  | nil => simp
  | cons a t ih =>
    intro p hp
    simp only [List.map_cons, List.zip_cons_cons, List.mem_cons] at hp
    rcases hp with rfl | hp
    · exact ⟨rfl, rfl, rfl, rfl, rfl, rfl⟩
    · exact ih p hp

/-- C3: with remote success, `markAllAsRead` zeroes the counter whatever
its prior value, keeps the list's length (hence order: entries correspond
position by position), marks every entry read, and changes no field other
than the read flag. -/
theorem markAllAsRead_success (s : NotifState) :
    (markAllAsRead true s).unreadCount = 0 ∧
    (markAllAsRead true s).notifications.length = s.notifications.length ∧
    (∀ n ∈ (markAllAsRead true s).notifications, n.is_read = true) ∧
    ∀ p ∈ s.notifications.zip (markAllAsRead true s).notifications,
      sameExceptRead p.1 p.2 := by
  refine ⟨rfl, by simp [markAllAsRead], ?_, zip_map_setRead s.notifications⟩
  intro n hn
  simp only [markAllAsRead, List.mem_map] at hn
  obtain ⟨m, _, rfl⟩ := hn
  rfl

/-- Every completed operation keeps the unread counter non-negative. -/
lemma applyOp_nonneg (s : NotifState) (op : NotifOp)
    (h : 0 ≤ s.unreadCount) : 0 ≤ (applyOp s op).unreadCount := by
  cases op with
  | add n =>
    show (0 : Int) ≤ s.unreadCount + 1
    omega
  | markRead remoteOk i =>
    cases remoteOk with
    | false => exact h
    | true => exact le_max_left _ _
  | markAll remoteOk =>
    cases remoteOk with
    | false => exact h
    | true => exact le_refl 0
  | pushNotification now nowIso d =>
    show (0 : Int) ≤ s.unreadCount + 1
    omega
  | pushNewResponse now nowIso d =>
    show (0 : Int) ≤ s.unreadCount + 1
    omega

/-- Folding completed operations preserves the non-negative counter. -/
lemma foldl_applyOp_nonneg (ops : List NotifOp) :
    ∀ s : NotifState, 0 ≤ s.unreadCount →
      0 ≤ (ops.foldl applyOp s).unreadCount := by
  induction ops with
  | nil => intro s h; simpa using h
  | cons op t ih =>
    intro s h
    simpa [List.foldl_cons] using ih _ (applyOp_nonneg s op h)

/-- C10: from the initial state (empty list, counter 0), after every
finite sequence of completed `addNotification`, `markAsRead` (succeeding
or failing), `markAllAsRead` (succeeding or failing) and push-event
handlings, the unread counter is at least 0. -/
theorem runOps_unreadCount_nonneg (ops : List NotifOp) :
    0 ≤ (runOps ops).unreadCount :=
  foldl_applyOp_nonneg ops initState (by decide)

/-- C7: on a 401 response both interceptor variants remove the stored
token; the path-checking variant redirects to `/login` exactly when the
current path contains neither `/login` nor `/feedback/`, while the other
variant redirects unconditionally. -/
theorem interceptor_401_behavior (b : BrowserState) :
    (responseInterceptorV2 401 b).authToken = none ∧
    ((responseInterceptorV2 401 b).redirectTo = some "/login" ↔
      strContains b.pathname "/login" = false ∧
      strContains b.pathname "/feedback/" = false) ∧
    (responseInterceptorV1 401 b).authToken = none ∧
    (responseInterceptorV1 401 b).redirectTo = some "/login" := by
  refine ⟨?_, ?_, ?_, ?_⟩
  · simp [responseInterceptorV2]
  · simp only [responseInterceptorV2, if_pos rfl]
    cases h1 : strContains b.pathname "/login" <;>
      cases h2 : strContains b.pathname "/feedback/" <;>
        simp [h1, h2]
  · simp [responseInterceptorV1]
  · simp [responseInterceptorV1]

/-- C7 witness: the theorem instantiated at a concrete browser state on
an admin path with a stored token — both variants clear the token, and
the path-checking variant does redirect there. -/
theorem interceptor_401_behavior_witness :
    ((responseInterceptorV2 401
        { authToken := some "tok", pathname := "/admin/forms" }).authToken = none ∧
      ((responseInterceptorV2 401
        { authToken := some "tok", pathname := "/admin/forms" }).redirectTo = some "/login" ↔
        strContains "/admin/forms" "/login" = false ∧
        strContains "/admin/forms" "/feedback/" = false) ∧
      (responseInterceptorV1 401
        { authToken := some "tok", pathname := "/admin/forms" }).authToken = none ∧
      (responseInterceptorV1 401
        { authToken := some "tok", pathname := "/admin/forms" }).redirectTo = some "/login") :=
  interceptor_401_behavior { authToken := some "tok", pathname := "/admin/forms" }

/-- The validation predicate, element by element: `validateForm` on a
loaded form holds exactly when every required question's answer is
present and non-empty. -/
lemma validateForm_iff (f : PublicForm) (answers : List (Nat × AnswerValue)) :
    validateForm (some f) answers = true ↔
      ∀ q ∈ f.questions, q.is_required = true →
        answerMissing (answers.lookup q.id) = false := by
  simp only [validateForm, List.all_eq_true, Bool.or_eq_true,
    Bool.not_eq_true']
  refine forall_congr' fun q => forall_congr' fun _ => ?_
  cases hq : q.is_required <;> cases hm : answerMissing (answers.lookup q.id) <;>
    simp [hq, hm]

/-- C8: submitting the public feedback form issues the remote request
exactly when every required question of the loaded form has a present,
non-empty answer; when some required answer is missing, the empty string
or an empty array, no request is made. -/
theorem handleSubmit_validation_gate (formId : String) (f : PublicForm)
    (answers : List (Nat × AnswerValue)) :
    ((handleSubmit formId (some f) answers).isSome = true ↔
      ∀ q ∈ f.questions, q.is_required = true →
        answerMissing (answers.lookup q.id) = false) := by
  rw [← validateForm_iff]
  simp only [handleSubmit]
  cases hv : validateForm (some f) answers <;> simp [hv]

/-- C8 witness: a concrete form with one required and one optional
question, the required one answered by a non-empty string — the request
is issued, in accordance with the theorem at this input. -/
theorem handleSubmit_validation_gate_witness :
    ((handleSubmit "form-1"
        (some { questions := [{ id := 1, is_required := true },
                              { id := 2, is_required := false }] })
        [(1, .str "great")]).isSome = true ↔
      ∀ q ∈ [({ id := 1, is_required := true } : Question),
             { id := 2, is_required := false }], q.is_required = true →
        answerMissing (([(1, AnswerValue.str "great")]).lookup q.id) = false) :=
  handleSubmit_validation_gate "form-1"
    { questions := [{ id := 1, is_required := true },
                    { id := 2, is_required := false }] }
    [(1, .str "great")]

end CFrontend
